import Mathlib

/-! Verification development.
Shallow embedding of the Svelte Solana wallet store (`walletStore.js`) and
verification of the specification's claims about it.

The store is modelled as a record of its declared fields; the surrounding
browser facilities used by the code (localStorage, adapter event listeners,
the error callback, `window.open`) are modelled as an explicit `World` state
carrying the store, the localStorage map, the set of adapters that currently
have event listeners attached, and a trace of observable effects.  External
wallet adapters are modelled by an `Adapter` record whose behaviour flags say
whether the async `connect` / `disconnect` calls reject, and whose `sign*` /
`sendTransaction` methods are abstract functions over naturals standing for
transactions, connections, options and messages.
-/

namespace SolanaWalletModel

/-- Ready-state enumeration of a wallet provider, mirroring the adapter
library's `WalletReadyState` values used by the store. -/
inductive WalletReadyState where
  | Installed
  | NotDetected
  | Loadable
  | Unsupported
deriving DecidableEq, Repr

/-- Errors thrown by the store or by adapter methods.  The first three mirror
`WalletNotConnectedError`, `WalletNotSelectedError` and `WalletNotReadyError`;
`adapterError` stands for an arbitrary rejection coming out of an adapter's
own async method (identified by the adapter's name). -/
inductive JsError where
  | walletNotConnected
  | walletNotSelected
  | walletNotReady
  | adapterError (source : String)
deriving DecidableEq, Repr

/-- External wallet adapter object.  `hasSign*` model the JavaScript
`"signTransaction" in adapter` capability checks; `connectFails` and
`disconnectFails` say whether the corresponding async adapter call rejects;
the `*Fn` fields give the results of the adapter's own methods. -/
structure Adapter where
  name : String
  url : String
  readyState : WalletReadyState
  publicKey : Option Nat
  connected : Bool
  hasSignTransaction : Bool
  hasSignAllTransactions : Bool
  hasSignMessage : Bool
  connectFails : Bool
  disconnectFails : Bool
  signTransactionFn : Nat → Nat
  signAllTransactionsFn : List Nat → List Nat
  signMessageFn : Nat → Nat
  sendTransactionFn : Nat → Nat → Nat → Nat

/-- Entry of the store's `wallets` array: an adapter paired with the ready
state it had when the entry was built. -/
structure Wallet where
  adapter : Adapter
  readyState : WalletReadyState

/-- Observable effects of running the store's operations: calls into adapter
methods, invocations of the `onError` callback (through `newError`),
`window.open`, attaching/detaching the event listeners of an adapter, and the
store update that installs a (possibly absent) adapter as the active one. -/
inductive Effect where
  | adapterConnectCalled (name : String)
  | adapterDisconnectCalled (name : String)
  | adapterSignTransactionCalled (name : String)
  | adapterSignAllTransactionsCalled (name : String)
  | adapterSignMessageCalled (name : String)
  | adapterSendTransactionCalled (name : String)
  | onErrorCalled (e : JsError)
  | windowOpened (url : String)
  | listenersRemoved (name : String)
  | listenersAdded (name : String)
  | storeAdapterSet (name : Option String)
deriving DecidableEq, Repr

/-- The wallet store record, with the fields declared by the source's
`WalletStore` typedef and initialised by `createWalletStore`.  The
`signTransaction`, `signAllTransactions` and `signMessage` fields hold the
derived signing closures; each closure is represented by the adapter it
captured (`none` models the field being `undefined`), and its behaviour is
given by the `derivedSign*` functions below.  `walletsByName` is the
name-to-adapter record. -/
structure WalletStore where
  autoConnect : Bool
  wallets : List Wallet
  adapter : Option Adapter
  connected : Bool
  connecting : Bool
  disconnecting : Bool
  localStorageKey : String
  publicKey : Option Nat
  ready : WalletReadyState
  wallet : Option Adapter
  walletsByName : String → Option Adapter
  name : Option String
  signTransaction : Option Adapter
  signAllTransactions : Option Adapter
  signMessage : Option Adapter

/-- The full mutable state the module acts on: the store itself, the browser's
localStorage, the names of the adapters that currently have a
`readyStateChange` listener attached, the names of the adapters that currently
have the `connect` / `disconnect` / `error` listeners attached (these three
are always attached and detached together, on the active adapter), and the
trace of observable effects. -/
structure World where
  store : WalletStore
  localStorage : String → Option String
  readyListeners : List String
  coreListeners : List String
  trace : List Effect

/-- Adding a listener for an event a listener is already attached for is kept
idempotent at the level of our name sets. -/
def insertName (n : String) (l : List String) : List String :=
  if l.contains n then l else n :: l

/-- Models `setLocalStorage`: a `null` value removes the key, any other value
is stored under the key (JSON encoding and decoding of the stored wallet name
cancel out and are not represented). -/
def setLocalStorage (key : String) (value : Option String) (w : World) : World :=
  match value with
  | none => { w with localStorage := fun k => if k = key then none else w.localStorage k }
  | some v => { w with localStorage := fun k => if k = key then some v else w.localStorage k }

/-- Models `getLocalStorage` with default `null`: returns the value stored
under the key, if any. -/
def getLocalStorage (key : String) (w : World) : Option String :=
  w.localStorage key

/-- Models `newError`: passes the error to the store's `onError` handler
(recorded in the trace) and hands the error back to be thrown. -/
def newError (e : JsError) (w : World) : World :=
  { w with trace := w.trace ++ [Effect.onErrorCalled e] }

/-- The external adapter's async `connect` method: the call is recorded, and
it rejects exactly when the adapter's `connectFails` flag is set. -/
def adapterConnect (a : Adapter) (w : World) : Except JsError Unit × World :=
  let w := { w with trace := w.trace ++ [Effect.adapterConnectCalled a.name] }
  if a.connectFails then (Except.error (JsError.adapterError a.name), w)
  else (Except.ok (), w)

/-- The external adapter's async `disconnect` method: the call is recorded,
and it rejects exactly when the adapter's `disconnectFails` flag is set. -/
def adapterDisconnect (a : Adapter) (w : World) : Except JsError Unit × World :=
  let w := { w with trace := w.trace ++ [Effect.adapterDisconnectCalled a.name] }
  if a.disconnectFails then (Except.error (JsError.adapterError a.name), w)
  else (Except.ok (), w)

/-- Models the store's `setConnecting` method. -/
def setConnecting (b : Bool) (w : World) : World :=
  { w with store := { w.store with connecting := b } }

/-- Models the store's `setDisconnecting` method. -/
def setDisconnecting (b : Bool) (w : World) : World :=
  { w with store := { w.store with disconnecting := b } }

/-- Models the store's `setReady` method. -/
def setReady (r : WalletReadyState) (w : World) : World :=
  { w with store := { w.store with ready := r } }

/-- Models the store's `updateStatus` method, which spreads a
`WalletStatus` object (publicKey and connected) into the store. -/
def updateStatus (pk : Option Nat) (c : Bool) (w : World) : World :=
  { w with store := { w.store with publicKey := pk, connected := c } }

/-- Models the store's `updateWallets` method.  In the source the update is
written as a spread of the ARRAY argument into the store object literal
(`update(store => (... store with the array spread over it ...))`): spreading
an array into an object adds the array's numeric indices as extra keys and
leaves the store's `wallets` property itself untouched.  On the store's
declared fields the method is therefore the identity. -/
def updateWallets (_newWallets : List Wallet) (w : World) : World := w

/-- Models `removeAdapterEventListeners`: a no-op when no adapter is active;
otherwise detaches the `readyStateChange` listener from every listed wallet's
adapter and the `connect` / `disconnect` / `error` listeners from the active
adapter. -/
def removeAdapterEventListeners (w : World) : World :=
  match w.store.adapter with
  | none => w
  | some a =>
    { w with
      readyListeners :=
        w.store.wallets.foldl (fun acc wlt => acc.filter (fun n => n != wlt.adapter.name))
          w.readyListeners
      coreListeners := w.coreListeners.filter (fun n => n != a.name)
      trace := w.trace ++ [Effect.listenersRemoved a.name] }

/-- Models `addAdapterEventListeners`: attaches a `readyStateChange` listener
to every listed wallet's adapter and the `connect` / `disconnect` / `error`
listeners to the given adapter. -/
def addAdapterEventListeners (a : Adapter) (w : World) : World :=
  { w with
    readyListeners :=
      w.store.wallets.foldl (fun acc wlt => insertName wlt.adapter.name acc) w.readyListeners
    coreListeners := insertName a.name w.coreListeners
    trace := w.trace ++ [Effect.listenersAdded a.name] }

/-- Models `updateAdapter`: first detaches the current adapter's listeners,
builds the derived signing closures according to the capability checks
(`"signTransaction" in adapter` and so on), attaches the new adapter's
listeners when there is one, and finally installs the adapter and the signing
closures in the store. -/
def updateAdapter (a : Option Adapter) (w : World) : World :=
  let w := removeAdapterEventListeners w
  let signT : Option Adapter :=
    match a with
    | some ad => if ad.hasSignTransaction then some ad else none
    | none => none
  let signA : Option Adapter :=
    match a with
    | some ad => if ad.hasSignAllTransactions then some ad else none
    | none => none
  let signM : Option Adapter :=
    match a with
    | some ad => if ad.hasSignMessage then some ad else none
    | none => none
  let w :=
    match a with
    | some ad => addAdapterEventListeners ad w
    | none => w
  { w with
    store := { w.store with
                adapter := a
                signTransaction := signT
                signAllTransactions := signA
                signMessage := signM }
    trace := w.trace ++ [Effect.storeAdapterSet (a.map Adapter.name)] }

/-- The two store updates performed unconditionally by `updateWalletState`:
`updateAdapter` followed by the update of `name`, `wallet`, `ready`,
`publicKey` and `connected` from the adapter (the `adapter?.name || null`
idiom turns an empty name into `null`; `ready` falls back to
`"Unsupported"`). -/
def updateWalletStateCore (a : Option Adapter) (w : World) : World :=
  let w := updateAdapter a w
  { w with
    store := { w.store with
                name :=
                  match a with
                  | some ad => if ad.name = "" then none else some ad.name
                  | none => none
                wallet := a
                ready :=
                  match a with
                  | some ad => ad.readyState
                  | none => WalletReadyState.Unsupported
                publicKey :=
                  match a with
                  | some ad => ad.publicKey
                  | none => none
                connected :=
                  match a with
                  | some ad => ad.connected
                  | none => false } }

/-- The effect of `resetWallet` (that is, of `updateWalletName null`): the
stored wallet name is removed from localStorage and the wallet state is
rebuilt from a `null` adapter; the auto-connect branch of `updateWalletState`
is unreachable for a `null` adapter.  `resetWallet` below is proved equal to
this function; this unfolded form exists so that `autoConnect`, which is
called from `updateWalletState`, can call it without mutual recursion. -/
def resetWalletAux (w : World) : World :=
  updateWalletStateCore none (setLocalStorage w.store.localStorageKey none w)

/-- Models `shouldAutoConnect`. -/
def shouldAutoConnect (w : World) : Bool :=
  let s := w.store
  !(!s.autoConnect || s.adapter.isNone ||
    !(s.ready == WalletReadyState.Installed || s.ready == WalletReadyState.Loadable) ||
    s.connected || s.connecting)

/-- Models the module-level `autoConnect` helper: sets `connecting`, calls
the adapter's `connect`, clears the selected wallet when the call rejects
(without rethrowing), and clears `connecting` again. -/
def autoConnect (w : World) : World :=
  let w := setConnecting true w
  match w.store.adapter with
  | none => setConnecting false w
  | some a =>
    match adapterConnect a w with
    | (Except.ok _, w) => setConnecting false w
    | (Except.error _, w) => setConnecting false (resetWalletAux w)

/-- Models `updateWalletState`: the unconditional updates, then — only when an
adapter is present — the `shouldAutoConnect` check and the auto-connect. -/
def updateWalletState (a : Option Adapter) (w : World) : World :=
  let w := updateWalletStateCore a w
  match a with
  | none => w
  | some _ => if shouldAutoConnect w then autoConnect w else w

/-- Models `updateWalletName`: looks the name up in `walletsByName`, persists
the name to localStorage, and rebuilds the wallet state from the found
adapter. -/
def updateWalletName (name : Option String) (w : World) : World :=
  let adapter : Option Adapter :=
    match name with
    | some nm => w.store.walletsByName nm
    | none => none
  let w := setLocalStorage w.store.localStorageKey name w
  updateWalletState adapter w

/-- Models the store's `resetWallet` method: `updateWalletName null`. -/
def resetWallet (w : World) : World := updateWalletName none w

/-- Models the module-level `connect`: the connected/connecting/disconnecting
guard, the no-adapter error, the not-ready branch (reset, `window.open`,
`WalletNotReadyError`), and the guarded call into the adapter's `connect`
with reset-and-rethrow on rejection. -/
def connect (w : World) : Except JsError Unit × World :=
  let s := w.store
  if s.connected || s.connecting || s.disconnecting then (Except.ok (), w)
  else
    match s.adapter with
    | none => (Except.error JsError.walletNotSelected, newError JsError.walletNotSelected w)
    | some a =>
      if !(s.ready == WalletReadyState.Installed || s.ready == WalletReadyState.Loadable) then
        let w := resetWallet w
        let w := { w with trace := w.trace ++ [Effect.windowOpened a.url] }
        (Except.error JsError.walletNotReady, newError JsError.walletNotReady w)
      else
        let w := setConnecting true w
        match adapterConnect a w with
        | (Except.ok _, w) => (Except.ok (), setConnecting false w)
        | (Except.error e, w) => (Except.error e, setConnecting false (resetWallet w))

/-- Models the module-level `disconnect`: the `disconnecting` guard, the
reset-only path when no adapter is selected, and otherwise the call into the
adapter's `disconnect` whose rejection propagates after the `finally` block
has reset the wallet and cleared `disconnecting`. -/
def disconnect (w : World) : Except JsError Unit × World :=
  if w.store.disconnecting then (Except.ok (), w)
  else
    match w.store.adapter with
    | none => (Except.ok (), resetWallet w)
    | some a =>
      let w := setDisconnecting true w
      match adapterDisconnect a w with
      | (r, w) =>
        let w := resetWallet w
        let w := setDisconnecting false w
        (r, w)

/-- Models `select`: returns when the name is already selected, otherwise
disconnects the current adapter (when there is one; a rejection of the
adapter's `disconnect` propagates and aborts the selection) and then updates
the wallet to the requested name. -/
def select (walletName : String) (w : World) : Except JsError Unit × World :=
  if w.store.name = some walletName then (Except.ok (), w)
  else
    match w.store.adapter with
    | none => (Except.ok (), updateWalletName (some walletName) w)
    | some _ =>
      match disconnect w with
      | (Except.ok _, w) => (Except.ok (), updateWalletName (some walletName) w)
      | (Except.error e, w) => (Except.error e, w)

/-- Models `sendTransaction`: `WalletNotConnectedError` when not connected,
`WalletNotSelectedError` when connected without an adapter (both passed to
`onError` through `newError`), otherwise the adapter's own `sendTransaction`
applied to the same arguments. -/
def sendTransaction (transaction connection options : Nat) (w : World) :
    Except JsError Nat × World :=
  if !w.store.connected then
    (Except.error JsError.walletNotConnected, newError JsError.walletNotConnected w)
  else
    match w.store.adapter with
    | none => (Except.error JsError.walletNotSelected, newError JsError.walletNotSelected w)
    | some a =>
      (Except.ok (a.sendTransactionFn transaction connection options),
       { w with trace := w.trace ++ [Effect.adapterSendTransactionCalled a.name] })

/-- Behaviour of the derived `signTransaction` closure built in
`updateAdapter` for the adapter `a` it captured: checks the store's
`connected` flag at invocation time, throws `WalletNotConnectedError` through
`newError` when it is false, and otherwise calls the adapter's own
`signTransaction`. -/
def derivedSignTransaction (a : Adapter) (transaction : Nat) (w : World) :
    Except JsError Nat × World :=
  if !w.store.connected then
    (Except.error JsError.walletNotConnected, newError JsError.walletNotConnected w)
  else
    (Except.ok (a.signTransactionFn transaction),
     { w with trace := w.trace ++ [Effect.adapterSignTransactionCalled a.name] })

/-- Behaviour of the derived `signAllTransactions` closure built in
`updateAdapter` for the adapter `a` it captured. -/
def derivedSignAllTransactions (a : Adapter) (transactions : List Nat) (w : World) :
    Except JsError (List Nat) × World :=
  if !w.store.connected then
    (Except.error JsError.walletNotConnected, newError JsError.walletNotConnected w)
  else
    (Except.ok (a.signAllTransactionsFn transactions),
     { w with trace := w.trace ++ [Effect.adapterSignAllTransactionsCalled a.name] })

/-- Behaviour of the derived `signMessage` closure built in `updateAdapter`
for the adapter `a` it captured. -/
def derivedSignMessage (a : Adapter) (message : Nat) (w : World) :
    Except JsError Nat × World :=
  if !w.store.connected then
    (Except.error JsError.walletNotConnected, newError JsError.walletNotConnected w)
  else
    (Except.ok (a.signMessageFn message),
     { w with trace := w.trace ++ [Effect.adapterSignMessageCalled a.name] })

/-- The `walletsByName` record built by the initialisation reduce: each
adapter is assigned under its name, a later assignment overwriting an earlier
one with the same name. -/
def walletsByNameOf (wallets : List Adapter) : String → Option Adapter :=
  wallets.foldl (fun m a => fun n => if n = a.name then some a else m n) (fun _ => none)

/-- Models the exported `initialize` function: builds `walletsByName` and the
wrapped `wallets` array, spreads the configuration into the store, then reads
the persisted wallet name from localStorage and, when it is truthy, selects
that wallet again. -/
def initializeStore (wallets : List Adapter) (autoConnectFlag : Bool)
    (localStorageKey : String) (w : World) : World :=
  let byName := walletsByNameOf wallets
  let mapWallets := wallets.map (fun a => { adapter := a, readyState := a.readyState : Wallet })
  let w := { w with
    store := { w.store with
                wallets := mapWallets
                walletsByName := byName
                autoConnect := autoConnectFlag
                localStorageKey := localStorageKey } }
  match getLocalStorage localStorageKey w with
  | none => w
  | some nm => if nm = "" then w else updateWalletName (some nm) w

/-- Models the `onConnect` event listener. -/
def onConnect (w : World) : World :=
  match w.store.adapter with
  | none => w
  | some a => updateStatus a.publicKey a.connected w

/-- Models the `onDisconnect` event listener. -/
def onDisconnect (w : World) : World := resetWallet w

/-- Models the `onReadyStateChange` event listener: returns when no adapter is
active, sets `ready` from the ACTIVE adapter's `readyState`, finds the
emitting adapter in the `wallets` array by name, and hands the array rebuilt
with the new `readyState` to `updateWallets`. -/
def onReadyStateChange (thisAdapter : Adapter) (readyState : WalletReadyState)
    (w : World) : World :=
  match w.store.adapter with
  | none => w
  | some a =>
    let w := setReady a.readyState w
    match w.store.wallets.findIdx? (fun wlt => wlt.adapter.name == thisAdapter.name) with
    | none => w
    | some i =>
      match w.store.wallets[i]? with
      | none => w
      | some wlt =>
        updateWallets
          (w.store.wallets.take i ++ [{ wlt with readyState := readyState }]
            ++ w.store.wallets.drop (i + 1)) w

/-- Characterisation used to state C7, written from the specification's words:
the adapter mapped to a name is the LAST adapter of that name in the input
list (the later adapter wins). -/
def lastAdapterNamed (n : String) (wallets : List Adapter) : Option Adapter :=
  wallets.foldl (fun acc a => if n = a.name then some a else acc) none

/-- The relation claimed by C2 between the signing-closure fields and the
active adapter: each field is populated exactly when an adapter is installed
and it supports the corresponding capability, and the closure captured that
adapter. -/
def signFieldsMatch (s : WalletStore) : Prop :=
  s.signTransaction =
    (match s.adapter with
     | some a => if a.hasSignTransaction then some a else none
     | none => none) ∧
  s.signAllTransactions =
    (match s.adapter with
     | some a => if a.hasSignAllTransactions then some a else none
     | none => none) ∧
  s.signMessage =
    (match s.adapter with
     | some a => if a.hasSignMessage then some a else none
     | none => none)

/-! Concrete fixtures used by witnesses and counterexample evaluations. -/

/-- A concrete installed adapter supporting single and batch transaction
signing but not message signing. -/
def phantomAdapter : Adapter where
  name := "Phantom"
  url := "https://phantom.example"
  readyState := WalletReadyState.Installed
  publicKey := some 11
  connected := true
  hasSignTransaction := true
  hasSignAllTransactions := true
  hasSignMessage := false
  connectFails := false
  disconnectFails := false
  signTransactionFn := fun t => t + 1
  signAllTransactionsFn := fun l => l.map (fun t => t + 1)
  signMessageFn := fun m => m + 2
  sendTransactionFn := fun t c o => t + c + o

/-- A second concrete installed adapter, not yet connected, supporting
message signing. -/
def solflareAdapter : Adapter where
  name := "Solflare"
  url := "https://solflare.example"
  readyState := WalletReadyState.Installed
  publicKey := none
  connected := false
  hasSignTransaction := true
  hasSignAllTransactions := false
  hasSignMessage := true
  connectFails := false
  disconnectFails := false
  signTransactionFn := fun t => t + 10
  signAllTransactionsFn := fun l => l
  signMessageFn := fun m => m + 20
  sendTransactionFn := fun t _ _ => t

/-- The store as initialised by `createWalletStore`. -/
def emptyStore : WalletStore where
  autoConnect := false
  wallets := []
  adapter := none
  connected := false
  connecting := false
  disconnecting := false
  localStorageKey := "walletAdapter"
  publicKey := none
  ready := WalletReadyState.Unsupported
  wallet := none
  walletsByName := fun _ => none
  name := none
  signTransaction := none
  signAllTransactions := none
  signMessage := none

/-- A fresh world: pristine store, empty localStorage, no listeners, empty
trace. -/
def emptyWorld : World where
  store := emptyStore
  localStorage := fun _ => none
  readyListeners := []
  coreListeners := []
  trace := []

/-- A world whose store has the `connected` flag set and the first fixture
adapter installed. -/
def connectedWorld : World :=
  { emptyWorld with
    store := { emptyStore with connected := true, adapter := some phantomAdapter } }

/-- A world whose store is mid-guard: `connected` is set. -/
def guardWorld : World :=
  { emptyWorld with store := { emptyStore with connected := true } }

/-! Section: C5 — guard condition on `connect` -/

/-- C5: for every store state in which `connected`, `connecting`, or
`disconnecting` is true, calling `connect` returns without throwing, does not
invoke the adapter's `connect` method, and leaves every field of the store
(and of the whole world, trace included) unchanged. -/
theorem connect_guard_noop (w : World)
    (h : w.store.connected = true ∨ w.store.connecting = true ∨
      w.store.disconnecting = true) :
    connect w = (Except.ok (), w) := by
  have hb : (w.store.connected || w.store.connecting || w.store.disconnecting) = true := by
    rcases h with h | h | h <;> simp [h]
  simp [connect, hb]

/-- Witness for C5 at a concrete connected store. -/
theorem connect_guard_noop_witness :
    guardWorld.store.connected = true ∧ connect guardWorld = (Except.ok (), guardWorld) :=
  ⟨rfl, connect_guard_noop guardWorld (Or.inl rfl)⟩

/-! Section: C6 — `sendTransaction` error conditions -/

/-- C6: for every transaction, connection and options, `sendTransaction`
throws `WalletNotConnectedError` (after passing it to `onError`) when the
store is not connected; throws `WalletNotSelectedError` (after passing it to
`onError`) when connected but no adapter is set; and otherwise returns the
result of the active adapter's `sendTransaction` applied to the same
arguments. -/
theorem sendTransaction_spec (w : World) (transaction connection options : Nat) :
    (w.store.connected = false →
      sendTransaction transaction connection options w =
        (Except.error JsError.walletNotConnected, newError JsError.walletNotConnected w)) ∧
    (w.store.connected = true → w.store.adapter = none →
      sendTransaction transaction connection options w =
        (Except.error JsError.walletNotSelected, newError JsError.walletNotSelected w)) ∧
    (∀ a : Adapter, w.store.connected = true → w.store.adapter = some a →
      sendTransaction transaction connection options w =
        (Except.ok (a.sendTransactionFn transaction connection options),
         { w with trace := w.trace ++ [Effect.adapterSendTransactionCalled a.name] })) := by
  refine ⟨fun h => by simp [sendTransaction, h],
          fun h ha => by simp [sendTransaction, h, ha],
          fun a h ha => by simp [sendTransaction, h, ha]⟩

/-- Witness for C6 at a concrete connected store with an installed adapter. -/
theorem sendTransaction_spec_witness :
    sendTransaction 5 7 9 connectedWorld =
      (Except.ok (phantomAdapter.sendTransactionFn 5 7 9),
       { connectedWorld with
          trace := connectedWorld.trace ++
            [Effect.adapterSendTransactionCalled phantomAdapter.name] }) :=
  (sendTransaction_spec connectedWorld 5 7 9).2.2 phantomAdapter rfl rfl

/-! Section: C9 — derived signing functions -/

/-- C9: every derived signing function, when invoked while the store's
`connected` flag is false, throws `WalletNotConnectedError` (after passing it
to `onError`) without calling the underlying adapter method; when `connected`
is true, it returns the result of the corresponding adapter method applied to
the same argument. -/
theorem derived_sign_functions_spec (w : World) (a : Adapter)
    (transaction message : Nat) (transactions : List Nat) :
    (w.store.connected = false →
      derivedSignTransaction a transaction w =
        (Except.error JsError.walletNotConnected, newError JsError.walletNotConnected w) ∧
      derivedSignAllTransactions a transactions w =
        (Except.error JsError.walletNotConnected, newError JsError.walletNotConnected w) ∧
      derivedSignMessage a message w =
        (Except.error JsError.walletNotConnected, newError JsError.walletNotConnected w)) ∧
    (w.store.connected = true →
      derivedSignTransaction a transaction w =
        (Except.ok (a.signTransactionFn transaction),
         { w with trace := w.trace ++ [Effect.adapterSignTransactionCalled a.name] }) ∧
      derivedSignAllTransactions a transactions w =
        (Except.ok (a.signAllTransactionsFn transactions),
         { w with trace := w.trace ++ [Effect.adapterSignAllTransactionsCalled a.name] }) ∧
      derivedSignMessage a message w =
        (Except.ok (a.signMessageFn message),
         { w with trace := w.trace ++ [Effect.adapterSignMessageCalled a.name] })) := by
  constructor <;> intro h <;>
    exact ⟨by simp [derivedSignTransaction, h],
           by simp [derivedSignAllTransactions, h],
           by simp [derivedSignMessage, h]⟩

/-- Witness for C9 at a concrete connected store. -/
theorem derived_sign_functions_spec_witness :
    derivedSignTransaction phantomAdapter 3 connectedWorld =
      (Except.ok (phantomAdapter.signTransactionFn 3),
       { connectedWorld with
          trace := connectedWorld.trace ++
            [Effect.adapterSignTransactionCalled phantomAdapter.name] }) :=
  ((derived_sign_functions_spec connectedWorld phantomAdapter 3 0 []).2 rfl).1

/-! Section: C3 — disconnect resets the session state -/

/-- C3: for every quiescent state with a selected adapter (`disconnecting` is
false outside a disconnect in flight), after `disconnect` completes —
including when the adapter's `disconnect` call throws — the store's
`adapter`, `wallet`, `name` and `publicKey` are null, `connected` is false,
`ready` is Unsupported, the signing function references are undefined, and
`disconnecting` is false. -/
theorem disconnect_resets_session (w : World) (a : Adapter)
    (hA : w.store.adapter = some a) (hd : w.store.disconnecting = false) :
    ((disconnect w).2.store.adapter = none) ∧
    ((disconnect w).2.store.wallet = none) ∧
    ((disconnect w).2.store.name = none) ∧
    ((disconnect w).2.store.publicKey = none) ∧
    ((disconnect w).2.store.connected = false) ∧
    ((disconnect w).2.store.ready = WalletReadyState.Unsupported) ∧
    ((disconnect w).2.store.signTransaction = none) ∧
    ((disconnect w).2.store.signAllTransactions = none) ∧
    ((disconnect w).2.store.signMessage = none) ∧
    ((disconnect w).2.store.disconnecting = false) := by
  cases hf : a.disconnectFails <;>
    simp [disconnect, hd, hA, adapterDisconnect, setDisconnecting, hf, resetWallet,
      updateWalletName, setLocalStorage, updateWalletState, updateWalletStateCore,
      updateAdapter, removeAdapterEventListeners, addAdapterEventListeners]

/-- Witness for C3 at a concrete connected store with an installed adapter. -/
theorem disconnect_resets_session_witness :
    (disconnect connectedWorld).2.store.adapter = none ∧
    (disconnect connectedWorld).2.store.disconnecting = false :=
  ⟨(disconnect_resets_session connectedWorld phantomAdapter rfl rfl).1,
   (disconnect_resets_session connectedWorld phantomAdapter rfl
     rfl).2.2.2.2.2.2.2.2.2⟩

/-! Section: C4 — readyStateChange and the `updateWallets` slip -/

/-- A world with the fixture adapter active and listed with a stale
`NotDetected` entry in `wallets`: the input on which the claimed `wallets`
update fails to happen. -/
def bugWorld : World :=
  { emptyWorld with
    store := { emptyStore with
                adapter := some phantomAdapter
                wallets := [{ adapter := phantomAdapter
                              readyState := WalletReadyState.NotDetected }] } }

/-- C4, evaluated at the failing input: when the listed active adapter emits
`readyStateChange Installed`, the store's `ready` field is indeed set from
the active adapter's `readyState`, but the `wallets` array entry keeps its
stale `NotDetected` ready state — `updateWallets` spreads the rebuilt array
into the store object instead of assigning the `wallets` property, so the
claimed update never happens. -/
theorem readyStateChange_bug :
    ((onReadyStateChange phantomAdapter WalletReadyState.Installed bugWorld).store.ready =
      WalletReadyState.Installed) ∧
    ((onReadyStateChange phantomAdapter WalletReadyState.Installed
        bugWorld).store.wallets.map Wallet.readyState = [WalletReadyState.NotDetected]) :=
  ⟨rfl, rfl⟩

/-! Section: C8 — `connect` on a selected but not-ready wallet -/

/-- C8: for every quiescent store state with a selected adapter whose ready
state is neither Installed nor Loadable (and with `connected`, `connecting`
and `disconnecting` all false), `connect` clears the wallet selection
(resetting the store to the empty session state), opens the adapter's url,
and throws `WalletNotReadyError` after passing it to `onError`; the adapter's
`connect` method is never invoked — the complete effect trace is listed and
contains no `adapterConnectCalled` event. -/
theorem connect_not_ready (w : World) (a : Adapter)
    (hA : w.store.adapter = some a)
    (hc : w.store.connected = false) (hg : w.store.connecting = false)
    (hd : w.store.disconnecting = false)
    (hr1 : w.store.ready ≠ WalletReadyState.Installed)
    (hr2 : w.store.ready ≠ WalletReadyState.Loadable) :
    ((connect w).1 = Except.error JsError.walletNotReady) ∧
    ((connect w).2.store.adapter = none) ∧
    ((connect w).2.store.name = none) ∧
    ((connect w).2.store.wallet = none) ∧
    ((connect w).2.store.publicKey = none) ∧
    ((connect w).2.store.connected = false) ∧
    ((connect w).2.trace = w.trace ++
      [Effect.listenersRemoved a.name, Effect.storeAdapterSet none,
       Effect.windowOpened a.url, Effect.onErrorCalled JsError.walletNotReady]) := by
  have hb : (w.store.connected || w.store.connecting || w.store.disconnecting) = false := by
    simp [hc, hg, hd]
  have hrb : (w.store.ready == WalletReadyState.Installed ||
      w.store.ready == WalletReadyState.Loadable) = false := by
    cases hready : w.store.ready <;> simp_all
  refine ⟨?_, ?_, ?_, ?_, ?_, ?_, ?_⟩ <;>
    simp [connect, hb, hA, hrb, newError, resetWallet, updateWalletName,
      setLocalStorage, updateWalletState, updateWalletStateCore, updateAdapter,
      removeAdapterEventListeners, addAdapterEventListeners]

/-- A quiescent world whose selected adapter's provider is not detected. -/
def notReadyWorld : World :=
  { emptyWorld with
    store := { emptyStore with
                adapter := some phantomAdapter
                name := some "Phantom"
                ready := WalletReadyState.NotDetected } }

/-- Witness for C8 at a concrete not-ready store. -/
theorem connect_not_ready_witness :
    (connect notReadyWorld).1 = Except.error JsError.walletNotReady ∧
    (connect notReadyWorld).2.store.adapter = none :=
  ⟨(connect_not_ready notReadyWorld phantomAdapter rfl rfl rfl rfl
      (by decide) (by decide)).1,
   (connect_not_ready notReadyWorld phantomAdapter rfl rfl rfl rfl
      (by decide) (by decide)).2.1⟩

/-! Section: C2 — signing functions present exactly when supported -/

/-- The two unconditional updates of `updateWalletState` leave the signing
fields agreeing with the installed adapter's capabilities. -/
theorem signFieldsMatch_core (a : Option Adapter) (w : World) :
    signFieldsMatch (updateWalletStateCore a w).store := by
  cases a <;>
    simp [signFieldsMatch, updateWalletStateCore, updateAdapter,
      removeAdapterEventListeners, addAdapterEventListeners]

/-- `autoConnect` preserves the signing-field relation: the successful branch
touches neither the adapter nor the signing fields, and the failure branch
resets both. -/
theorem signFieldsMatch_autoConnect (w : World) (h : signFieldsMatch w.store) :
    signFieldsMatch (autoConnect w).store := by
  rcases hA : w.store.adapter with _ | a
  · simp_all [autoConnect, setConnecting, signFieldsMatch]
  · cases hf : a.connectFails <;>
      simp_all [autoConnect, adapterConnect, setConnecting, resetWalletAux,
        setLocalStorage, updateWalletStateCore, updateAdapter,
        removeAdapterEventListeners, addAdapterEventListeners, signFieldsMatch]

/-- After `updateWalletState` the signing fields agree with the installed
adapter's capabilities, whichever branch runs. -/
theorem signFieldsMatch_updateWalletState (a : Option Adapter) (w : World) :
    signFieldsMatch (updateWalletState a w).store := by
  cases a with
  | none => exact signFieldsMatch_core none w
  | some ad =>
    simp only [updateWalletState]
    split
    · exact signFieldsMatch_autoConnect _ (signFieldsMatch_core _ w)
    · exact signFieldsMatch_core _ w

/-- C2: after any selection change (every selection change goes through
`updateWalletName`), the store's `signTransaction`, `signAllTransactions` and
`signMessage` fields are each populated if and only if an adapter is
installed and that adapter has the corresponding method (and the populated
closure captured exactly the installed adapter); when no adapter is
installed all three are undefined. -/
theorem signing_functions_present_iff (n : Option String) (w : World) :
    signFieldsMatch (updateWalletName n w).store := by
  simp only [updateWalletName]
  exact signFieldsMatch_updateWalletState _ _

/-! Section: Preservation of the configuration fields

`wallets`, `walletsByName`, `autoConnect` and `localStorageKey` are written
only by `updateConfig` (inside the initialisation); selection changes leave
them alone.  These lemmas carry that fact through the call chain. -/

/-- `setLocalStorage` does not touch the store at all. -/
theorem config_setLocalStorage (key : String) (v : Option String) (w : World) :
    (setLocalStorage key v w).store = w.store := by
  cases v <;> rfl

/-- `updateAdapter` leaves the configuration fields unchanged. -/
theorem config_updateAdapter (a : Option Adapter) (w : World) :
    (updateAdapter a w).store.wallets = w.store.wallets ∧
    (updateAdapter a w).store.walletsByName = w.store.walletsByName ∧
    (updateAdapter a w).store.autoConnect = w.store.autoConnect ∧
    (updateAdapter a w).store.localStorageKey = w.store.localStorageKey := by
  cases a <;> cases hA : w.store.adapter <;>
    simp [updateAdapter, removeAdapterEventListeners, addAdapterEventListeners, hA]

/-- The unconditional part of `updateWalletState` leaves the configuration
fields unchanged. -/
theorem config_updateWalletStateCore (a : Option Adapter) (w : World) :
    (updateWalletStateCore a w).store.wallets = w.store.wallets ∧
    (updateWalletStateCore a w).store.walletsByName = w.store.walletsByName ∧
    (updateWalletStateCore a w).store.autoConnect = w.store.autoConnect ∧
    (updateWalletStateCore a w).store.localStorageKey = w.store.localStorageKey := by
  simpa [updateWalletStateCore] using config_updateAdapter a w

/-- Resetting the wallet leaves the configuration fields unchanged. -/
theorem config_resetWalletAux (w : World) :
    (resetWalletAux w).store.wallets = w.store.wallets ∧
    (resetWalletAux w).store.walletsByName = w.store.walletsByName ∧
    (resetWalletAux w).store.autoConnect = w.store.autoConnect ∧
    (resetWalletAux w).store.localStorageKey = w.store.localStorageKey := by
  have h := config_updateWalletStateCore none
    (setLocalStorage w.store.localStorageKey none w)
  simpa [resetWalletAux, config_setLocalStorage] using h

/-- `autoConnect` leaves the configuration fields unchanged. -/
theorem config_autoConnect (w : World) :
    (autoConnect w).store.wallets = w.store.wallets ∧
    (autoConnect w).store.walletsByName = w.store.walletsByName ∧
    (autoConnect w).store.autoConnect = w.store.autoConnect ∧
    (autoConnect w).store.localStorageKey = w.store.localStorageKey := by
  rcases hA : w.store.adapter with _ | a
  · simp [autoConnect, setConnecting, hA]
  · cases hf : a.connectFails <;>
      simp [autoConnect, adapterConnect, setConnecting, hA, hf, config_resetWalletAux]

/-- `updateWalletState` leaves the configuration fields unchanged. -/
theorem config_updateWalletState (a : Option Adapter) (w : World) :
    (updateWalletState a w).store.wallets = w.store.wallets ∧
    (updateWalletState a w).store.walletsByName = w.store.walletsByName ∧
    (updateWalletState a w).store.autoConnect = w.store.autoConnect ∧
    (updateWalletState a w).store.localStorageKey = w.store.localStorageKey := by
  cases a with
  | none => simpa [updateWalletState] using config_updateWalletStateCore none w
  | some ad =>
    simp only [updateWalletState]
    split
    · have h1 := config_updateWalletStateCore (some ad) w
      have h2 := config_autoConnect (updateWalletStateCore (some ad) w)
      exact ⟨h2.1.trans h1.1, h2.2.1.trans h1.2.1, h2.2.2.1.trans h1.2.2.1,
        h2.2.2.2.trans h1.2.2.2⟩
    · exact config_updateWalletStateCore _ w

/-- `updateWalletName` leaves the configuration fields unchanged. -/
theorem config_updateWalletName (n : Option String) (w : World) :
    (updateWalletName n w).store.wallets = w.store.wallets ∧
    (updateWalletName n w).store.walletsByName = w.store.walletsByName ∧
    (updateWalletName n w).store.autoConnect = w.store.autoConnect ∧
    (updateWalletName n w).store.localStorageKey = w.store.localStorageKey := by
  have h := config_updateWalletState
    (match n with | some nm => w.store.walletsByName nm | none => none)
    (setLocalStorage w.store.localStorageKey n w)
  simpa [updateWalletName, config_setLocalStorage] using h

/-! Section: C7 — initialisation from the supplied adapters -/

/-- Looking a name up in the record built by the initialisation reduce gives
the last adapter of that name in the list. -/
theorem walletsByNameOf_eq_last (wallets : List Adapter) (n : String) :
    walletsByNameOf wallets n = lastAdapterNamed n wallets := by
  suffices h : ∀ m : String → Option Adapter,
      (wallets.foldl (fun m a => fun k => if k = a.name then some a else m k) m) n =
        wallets.foldl (fun acc a => if n = a.name then some a else acc) (m n) by
    simpa [walletsByNameOf, lastAdapterNamed] using h (fun _ => none)
  induction wallets with
  | nil => intro m; rfl
  | cons a ws ih => intro m; simpa using ih (fun k => if k = a.name then some a else m k)

/-- C7: for every adapter list, after initialisation the store's `wallets`
field is the input list wrapped into adapter/readyState records in input
order, and `walletsByName` maps each name to the last adapter of that name
(the later adapter wins on a shared name) — whatever wallet name localStorage
may hold. -/
theorem initializeStore_spec (wallets : List Adapter) (autoConnectFlag : Bool)
    (localStorageKey : String) (w : World) (n : String) :
    ((initializeStore wallets autoConnectFlag localStorageKey w).store.wallets =
      wallets.map (fun a => { adapter := a, readyState := a.readyState : Wallet })) ∧
    ((initializeStore wallets autoConnectFlag localStorageKey w).store.walletsByName n =
      lastAdapterNamed n wallets) := by
  simp only [initializeStore, getLocalStorage]
  rcases hls : w.localStorage localStorageKey with _ | nm
  · simp [hls, walletsByNameOf_eq_last]
  · by_cases hnm : nm = ""
    · simp [hls, hnm, walletsByNameOf_eq_last]
    · simp [hls, hnm, config_updateWalletName, walletsByNameOf_eq_last]

/-! Section: C1 — `select` keeps at most one adapter active -/

/-- C1: from every quiescent state whose active adapter `a` has the listener
invariant (exactly the active adapter holds the connect/disconnect/error
listeners), selecting a different wallet name first calls the old adapter's
`disconnect` and detaches its listeners, and only afterwards installs the new
adapter — the trace lists the disconnect and the detach strictly before the
store update that sets the new adapter — and in the resulting state the new
adapter is the single adapter with listeners attached, so no state reachable
through `select` holds two adapters with listeners simultaneously. -/
theorem select_switches_active_adapter (w : World) (a newA : Adapter)
    (walletName : String)
    (hA : w.store.adapter = some a)
    (hname : ¬ w.store.name = some walletName)
    (hd : w.store.disconnecting = false)
    (hdf : a.disconnectFails = false)
    (hauto : w.store.autoConnect = false)
    (hcore : w.coreListeners = [a.name])
    (hlook : w.store.walletsByName walletName = some newA) :
    ((select walletName w).1 = Except.ok ()) ∧
    ((select walletName w).2.store.adapter = some newA) ∧
    ((select walletName w).2.coreListeners = [newA.name]) ∧
    ((select walletName w).2.trace = w.trace ++
      [Effect.adapterDisconnectCalled a.name, Effect.listenersRemoved a.name,
       Effect.storeAdapterSet none, Effect.listenersAdded newA.name,
       Effect.storeAdapterSet (some newA.name)]) := by
  refine ⟨?_, ?_, ?_, ?_⟩ <;>
    simp [select, hname, disconnect, hd, hA, setDisconnecting, adapterDisconnect, hdf,
      resetWallet, updateWalletName, setLocalStorage, updateWalletState,
      updateWalletStateCore, updateAdapter, removeAdapterEventListeners,
      addAdapterEventListeners, insertName, shouldAutoConnect, hauto, hcore, hlook]

/-- A quiescent world with the first fixture adapter active, holding the
listeners, and both fixture adapters listed. -/
def selectWorld : World :=
  { emptyWorld with
    store := { emptyStore with
                adapter := some phantomAdapter
                wallet := some phantomAdapter
                name := some "Phantom"
                connected := true
                ready := WalletReadyState.Installed
                publicKey := some 11
                signTransaction := some phantomAdapter
                signAllTransactions := some phantomAdapter
                wallets := [{ adapter := phantomAdapter
                              readyState := WalletReadyState.Installed },
                            { adapter := solflareAdapter
                              readyState := WalletReadyState.Installed }]
                walletsByName := fun n =>
                  if n = "Phantom" then some phantomAdapter
                  else if n = "Solflare" then some solflareAdapter else none }
    coreListeners := ["Phantom"]
    readyListeners := ["Phantom", "Solflare"] }

/-- Witness for C1: selecting the second fixture wallet from the first. -/
theorem select_switches_active_adapter_witness :
    (select "Solflare" selectWorld).1 = Except.ok () ∧
    (select "Solflare" selectWorld).2.store.adapter = some solflareAdapter ∧
    (select "Solflare" selectWorld).2.coreListeners = [solflareAdapter.name] :=
  ⟨(select_switches_active_adapter selectWorld phantomAdapter solflareAdapter "Solflare"
      rfl (by decide) rfl rfl rfl rfl rfl).1,
   (select_switches_active_adapter selectWorld phantomAdapter solflareAdapter "Solflare"
      rfl (by decide) rfl rfl rfl rfl rfl).2.1,
   (select_switches_active_adapter selectWorld phantomAdapter solflareAdapter "Solflare"
      rfl (by decide) rfl rfl rfl rfl rfl).2.2.1⟩

/-! Section: C10 — selection persistence round-trip -/

/-- Folding the later-wins pick over a list can only produce an adapter whose
name is the looked-up name, provided the start accumulator can only do so. -/
theorem lastAdapterNamed_name_aux (n : String) (a : Adapter) :
    ∀ (wallets : List Adapter) (acc : Option Adapter),
      (∀ b : Adapter, acc = some b → b.name = n) →
      wallets.foldl (fun acc x => if n = x.name then some x else acc) acc = some a →
      a.name = n := by
  intro wallets
  induction wallets with
  | nil => intro acc hacc h; exact hacc a h
  | cons x ws ih =>
    intro acc hacc h
    simp only [List.foldl_cons] at h
    refine ih _ ?_ h
    intro b hb
    by_cases hx : n = x.name
    · rw [if_pos hx] at hb
      injection hb with hxb
      rw [← hxb]
      exact hx.symm
    · rw [if_neg hx] at hb
      exact hacc b hb

/-- An adapter found in the initialisation record under a name carries that
name. -/
theorem walletsByNameOf_name (wallets : List Adapter) (n : String) (a : Adapter)
    (h : walletsByNameOf wallets n = some a) : a.name = n := by
  rw [walletsByNameOf_eq_last] at h
  unfold lastAdapterNamed at h
  exact lastAdapterNamed_name_aux n a wallets none (fun b hb => Option.noConfusion hb) h

/-- C10: from a quiescent state with no active adapter, selecting a wallet
name writes that name to localStorage under the store's `localStorageKey`
(and clearing the selection removes the key), and a subsequent
initialisation with the same key whose adapter list contains an adapter of
that name reads the stored name back and re-selects that adapter: the store's
`name` and `adapter` afterwards hold the selected name and its adapter. -/
theorem selection_roundtrip (w : World) (walletName : String)
    (wallets2 : List Adapter) (a2 : Adapter)
    (hA : w.store.adapter = none)
    (hname : ¬ w.store.name = some walletName)
    (hne : walletName ≠ "")
    (hauto : w.store.autoConnect = false)
    (hfound : walletsByNameOf wallets2 walletName = some a2) :
    ((select walletName w).2.localStorage w.store.localStorageKey = some walletName) ∧
    ((resetWallet w).localStorage w.store.localStorageKey = none) ∧
    ((initializeStore wallets2 false w.store.localStorageKey
        (select walletName w).2).store.name = some walletName) ∧
    ((initializeStore wallets2 false w.store.localStorageKey
        (select walletName w).2).store.adapter = some a2) := by
  have hn2 : a2.name = walletName := walletsByNameOf_name wallets2 walletName a2 hfound
  rcases hl : w.store.walletsByName walletName with _ | aOld <;>
    refine ⟨?_, ?_, ?_, ?_⟩ <;>
      simp [select, hname, hA, hl, resetWallet, updateWalletName, setLocalStorage,
        updateWalletState, updateWalletStateCore, updateAdapter,
        removeAdapterEventListeners, addAdapterEventListeners, insertName,
        shouldAutoConnect, hauto, initializeStore, getLocalStorage, hne, hfound,
        hn2, walletsByNameOf_eq_last]

/-- Witness for C10: selecting the second fixture wallet on a fresh world and
re-initialising with both fixture adapters restores the selection. -/
theorem selection_roundtrip_witness :
    ((select "Solflare" emptyWorld).2.localStorage emptyWorld.store.localStorageKey =
      some "Solflare") ∧
    ((initializeStore [phantomAdapter, solflareAdapter] false
        emptyWorld.store.localStorageKey
        (select "Solflare" emptyWorld).2).store.adapter = some solflareAdapter) :=
  ⟨(selection_roundtrip emptyWorld "Solflare" [phantomAdapter, solflareAdapter]
      solflareAdapter rfl (by decide) (by decide) rfl rfl).1,
   (selection_roundtrip emptyWorld "Solflare" [phantomAdapter, solflareAdapter]
      solflareAdapter rfl (by decide) (by decide) rfl rfl).2.2.2⟩

end SolanaWalletModel
